import Mathlib

/-!
Shallow embedding of the x11-key-remapper core (src/key_map.rs, src/xbridge.rs,
src/rebind.rs, src/lib.rs) and proofs about the window-adoption state machine,
the protocol bridge's grab bookkeeping, the event decoder and the acceptance
filter.

Modelling conventions:
* `WindowHandle` (an X `Window`, u64) and key codes / modifier state (u32) are
  modelled as `Nat`; only equality and map lookups on them matter.
* Rust `HashMap`s are modelled as association lists with `mapLookup`,
  `mapInsert` (replace-or-append) and `mapRemove`; `VecDeque` as `List`
  (`pop_front` = head/tail, `push_back` = append).
* Server-facing side effects (XSendEvent, XGrabKey, XReparentWindow, ...) are
  reified as an emitted command trace (`List XCmd`); pure X calls with no
  bookkeeping (XSync, sleeps) are elided.
* Server responses (window pid/class queries, atom interning, property reads)
  are supplied as oracle functions.
-/

abbrev WindowHandle := Nat

abbrev Atom := Nat

/-- Key from src/key_map.rs: a (code, modifier-state) pair, both u32. -/
structure Key where
  code : Nat
  state : Nat
  deriving DecidableEq, Repr

/-- KeyMap from src/key_map.rs: a HashMap from Key to Key, modelled as an
association list. -/
abbrev KeyMap := List (Key × Key)

/-- KeyMap::mapped_key: `self.map.get(&key).copied()`. -/
def KeyMap.mapped_key (m : KeyMap) (key : Key) : Option Key :=
  match m with
  | [] => none
  | e :: rest => if e.1 = key then some e.2 else KeyMap.mapped_key rest key

/-- KeyMap::keys: `self.map.keys()`. -/
def KeyMap.keyList (m : KeyMap) : List Key :=
  m.map Prod.fst

/-- Association-list lookup, modelling HashMap::get. -/
def mapLookup {β : Type} (k : WindowHandle) : List (WindowHandle × β) → Option β
  | [] => none
  | e :: rest => if e.1 = k then some e.2 else mapLookup k rest

/-- Association-list insert, modelling HashMap::insert (replace or append). -/
def mapInsert {β : Type} (k : WindowHandle) (v : β) :
    List (WindowHandle × β) → List (WindowHandle × β)
  | [] => [(k, v)]
  | e :: rest => if e.1 = k then (k, v) :: rest else e :: mapInsert k v rest

/-- Association-list removal, modelling HashMap::remove. -/
def mapRemove {β : Type} (k : WindowHandle) :
    List (WindowHandle × β) → List (WindowHandle × β)
  | [] => []
  | e :: rest => if e.1 = k then mapRemove k rest else e :: mapRemove k rest

/-- WindowState from src/rebind.rs. -/
inductive WindowState where
  | Valid (child : WindowHandle)
  | Exiting (child : WindowHandle)
  deriving DecidableEq, Repr

/-- WindowInfo from src/rebind.rs; `cls` models the `class` field (a Lean
keyword). -/
structure WindowInfo where
  cls : Option String
  pid : Option Nat
  deriving DecidableEq, Repr

/-- Commands issued to the X server, reifying the side-effecting Xlib calls
made by src/xbridge.rs. -/
inductive XCmd where
  | sendKeyEvent (window : WindowHandle) (key : Key)
  | unmapWindow (window : WindowHandle)
  | mapWindow (window : WindowHandle)
  | reparentWindow (child parent : WindowHandle)
  | reparentToRoot (child : WindowHandle)
  | destroyWindow (window : WindowHandle)
  | sendCloseMessage (child : WindowHandle)
  | xGrabKey (key : Key) (window : WindowHandle)
  | xUngrabKey (key : Key) (window : WindowHandle)
  | focusWindow (window : WindowHandle)
  | resizeTo (window : WindowHandle) (width height : Nat)
  | resizeToParent (child parent : WindowHandle)
  | createWindow (screen : Int)
  deriving DecidableEq, Repr

/-- The bridge-side bookkeeping state of XBridge (src/xbridge.rs): the
grabbed-keys map and the screens registered for creation notifications.  The
raw display pointer and interned atoms are not part of the state machine. -/
structure XBridge where
  grabbed_keys : List (WindowHandle × KeyMap)
  window_creation_listening_screens : List Int
  deriving DecidableEq, Repr

/-- ungrab_keys (free function in src/xbridge.rs): one XUngrabKey per key of
the map. -/
def ungrab_keys (window : WindowHandle) (key_map : KeyMap) : List XCmd :=
  (KeyMap.keyList key_map).map (fun key => XCmd.xUngrabKey key window)

/-- XBridge::grab_keys: ungrab the old map if present, drop its entry, grab
every key of the new map, record the new map. -/
def XBridge.grab_keys (b : XBridge) (window : WindowHandle) (key_map : KeyMap) :
    XBridge × List XCmd :=
  let ungrabCmds :=
    match mapLookup window b.grabbed_keys with
    | some keys_map => ungrab_keys window keys_map
    | none => []
  let remaining := mapRemove window b.grabbed_keys
  let grabCmds := (KeyMap.keyList key_map).map (fun key => XCmd.xGrabKey key window)
  ({ b with grabbed_keys := mapInsert window key_map remaining },
   ungrabCmds ++ grabCmds)

/-- XBridge::listen_for_window_creation: idempotent registration per screen. -/
def XBridge.listen_for_window_creation (b : XBridge) (screen : Int) : XBridge :=
  if b.window_creation_listening_screens.contains screen then b
  else { b with window_creation_listening_screens :=
          b.window_creation_listening_screens ++ [screen] }

/-- XBridge::notify_child_should_close: unmap the child, reparent it to the
root, destroy the parent frame, then send the WM_DELETE_WINDOW client message
to the child. -/
def notify_child_should_close (child parent : WindowHandle) : List XCmd :=
  [XCmd.unmapWindow child, XCmd.reparentToRoot child,
   XCmd.destroyWindow parent, XCmd.sendCloseMessage child]

/-- XBridge::reparent_window: unmap, reparent under the new parent at the
origin, remap (syncs and the grace delay elided). -/
def reparent_window (child parent : WindowHandle) : List XCmd :=
  [XCmd.unmapWindow child, XCmd.reparentWindow child parent, XCmd.mapWindow child]

/-- XBridgeEvent from src/xbridge.rs: the closed domain-event set. -/
inductive XBridgeEvent where
  | KeyPress (key : Key) (parent : WindowHandle)
  | Expose (parent : WindowHandle)
  | ConfigureNotify (width height : Nat) (parent : WindowHandle)
  | ReparentNotify (window : WindowHandle)
  | DestroyRequest (window : WindowHandle)
  | DestroyNotify (window : WindowHandle)
  | ParentFocus (parent : WindowHandle)
  deriving DecidableEq, Repr

/-- DesktopState from src/rebind.rs. -/
structure DesktopState where
  x : XBridge
  parent_child_map : List (WindowHandle × WindowState)
  parent_needed_queue : List WindowHandle
  deriving DecidableEq, Repr

/-- DesktopState::handle_key_press: remap the key (identity when absent from
the table), then forward it to the Valid child of the parent, if any. -/
def DesktopState.handle_key_press (s : DesktopState) (parent : WindowHandle)
    (pressed_key : Key) (key_map : KeyMap) : DesktopState × List XCmd :=
  let new_key :=
    match KeyMap.mapped_key key_map pressed_key with
    | some new_key => new_key
    | none => pressed_key
  match mapLookup parent s.parent_child_map with
  | none => (s, [])
  | some child_state =>
    match child_state with
    | WindowState.Valid child => (s, [XCmd.sendKeyEvent child new_key])
    | WindowState.Exiting _ => (s, [])

/-- DesktopState::handle_parent_update (ConfigureNotify): resize the Valid
child to the parent's new geometry. -/
def DesktopState.handle_parent_update (s : DesktopState) (parent : WindowHandle)
    (width height : Nat) : DesktopState × List XCmd :=
  match mapLookup parent s.parent_child_map with
  | some child_state =>
    match child_state with
    | WindowState.Valid child => (s, [XCmd.resizeTo child width height])
    | WindowState.Exiting _ => (s, [])
  | none => (s, [])

/-- DesktopState::handle_parent_expose: with a Valid record, resize the child
to the parent; with no record, pop the oldest pending child (no-op when the
queue is empty), record it as Valid, reparent it under the parent and grab the
remap table's keys on the parent. -/
def DesktopState.handle_parent_expose (s : DesktopState) (parent : WindowHandle)
    (key_map : KeyMap) : DesktopState × List XCmd :=
  match mapLookup parent s.parent_child_map with
  | some child_state =>
    match child_state with
    | WindowState.Valid child => (s, [XCmd.resizeToParent child parent])
    | WindowState.Exiting _ => (s, [])
  | none =>
    match s.parent_needed_queue with
    | [] => (s, [])
    | child :: rest =>
      let s1 : DesktopState :=
        { s with
          parent_child_map := mapInsert parent (WindowState.Valid child) s.parent_child_map,
          parent_needed_queue := rest }
      let g := XBridge.grab_keys s1.x parent key_map
      ({ s1 with x := g.1 }, reparent_window child parent ++ g.2)

/-- The `already_parented` scan of DesktopState::handle_window_reparent: is the
window the child of any record, Valid or Exiting? -/
def isRecordChild (m : List (WindowHandle × WindowState)) (window : WindowHandle) : Bool :=
  m.any (fun e =>
    match e.2 with
    | WindowState.Valid child => child == window
    | WindowState.Exiting child => child == window)

/-- DesktopState::handle_window_reparent: no-op when the window is already
enqueued or already some record's child; otherwise enqueue it and create a new
frame window on the screen. -/
def DesktopState.handle_window_reparent (s : DesktopState) (window : WindowHandle)
    (screen : Int) : DesktopState × List XCmd :=
  let in_queue := s.parent_needed_queue.any (fun w => w == window)
  let already_parented := isRecordChild s.parent_child_map window
  if in_queue || already_parented then (s, [])
  else
    ({ s with parent_needed_queue := s.parent_needed_queue ++ [window] },
     [XCmd.createWindow screen])

/-- The read-only inputs threaded through the rebind loop: the remap table,
the acceptance filter, the pid/class query oracles and the screen. -/
structure RebindConfig where
  key_map : KeyMap
  window_filter : WindowInfo → Bool
  pidOf : WindowHandle → Option Nat
  classOf : WindowHandle → Option String
  screen : Int

/-- One iteration of the rebind event loop (the match in `rebind`,
src/rebind.rs), as a state transition emitting a command trace. -/
def rebindStep (cfg : RebindConfig) (s : DesktopState) (event : XBridgeEvent) :
    DesktopState × List XCmd :=
  match event with
  | XBridgeEvent.Expose parent => s.handle_parent_expose parent cfg.key_map
  | XBridgeEvent.ConfigureNotify width height parent =>
      s.handle_parent_update parent width height
  | XBridgeEvent.ReparentNotify window =>
      let pid := cfg.pidOf window
      let cls := cfg.classOf window
      let info : WindowInfo := { pid := pid, cls := cls }
      let pass_filter := cfg.window_filter info
      if pass_filter = false then (s, [])
      else s.handle_window_reparent window cfg.screen
  | XBridgeEvent.KeyPress key parent => s.handle_key_press parent key cfg.key_map
  | XBridgeEvent.DestroyRequest window =>
      match mapLookup window s.parent_child_map with
      | none => (s, [])
      | some child_state =>
        match child_state with
        | WindowState.Valid child =>
            ({ s with parent_child_map :=
                mapInsert window (WindowState.Exiting child) s.parent_child_map },
             notify_child_should_close child window)
        | WindowState.Exiting _ => (s, [])
  | XBridgeEvent.DestroyNotify window =>
      let keys := s.parent_child_map.filterMap (fun e =>
        let should_remove : Bool :=
          match e.2 with
          | WindowState.Valid _ => false
          | WindowState.Exiting child_window => window == child_window
        if should_remove then some e.1 else none)
      ({ s with parent_child_map :=
          keys.foldl (fun m k => mapRemove k m) s.parent_child_map }, [])
  | XBridgeEvent.ParentFocus parent =>
      match mapLookup parent s.parent_child_map with
      | some child_state =>
        match child_state with
        | WindowState.Valid child => (s, [XCmd.focusWindow child])
        | WindowState.Exiting _ => (s, [])
      | none => (s, [])

/-- Run a sequence of domain events through the rebind loop, keeping the
final state. -/
def runEvents (cfg : RebindConfig) (s : DesktopState) : List XBridgeEvent → DesktopState
  | [] => s
  | e :: rest => runEvents cfg (rebindStep cfg s e).1 rest

/-- The state of `rebind` right after XBridge::init and
listen_for_window_creation: empty maps and queue. -/
def rebindInit (screen : Int) : DesktopState :=
  { x := XBridge.listen_for_window_creation
      { grabbed_keys := [], window_creation_listening_screens := [] } screen,
    parent_child_map := [],
    parent_needed_queue := [] }

/-- matches_filter from src/lib.rs. -/
def matches_filter {P : Type} [BEq P] (filter : Option P) (value : Option P) : Bool :=
  match filter with
  | some filter_val =>
    match value with
    | some value => value == filter_val
    | none => false
  | none => true

/-- X11 event-type and detail constants used by XBridge::wait_next_event. -/
def xKeyPress : Nat := 2

def xFocusIn : Nat := 9

def xExpose : Nat := 12

def xDestroyNotify : Nat := 17

def xReparentNotify : Nat := 21

def xConfigureNotify : Nat := 22

def xClientMessage : Nat := 33

def notifyInferior : Nat := 2

/-- The fields of the raw XEvent union that XBridge::wait_next_event reads,
per event type. -/
structure RawXEvent where
  type_ : Nat
  window : WindowHandle
  state : Nat
  keycode : Nat
  width : Nat
  height : Nat
  detail : Nat
  data0 : Nat
  deriving DecidableEq, Repr

/-- Outcome of decoding one raw server event inside XBridge::wait_next_event:
return a domain event, silently skip and loop again, or panic. -/
inductive DecodeResult where
  | ret (event : XBridgeEvent)
  | skip
  | panics
  deriving DecidableEq, Repr

/-- The per-event decode step of XBridge::wait_next_event (the match on
`event.type_`).  The ClientMessage arm returns DestroyRequest for the
delete-window atom but executes `todo!()` — a panic — for the take-focus
atom; every type outside the match falls to the default arm and loops. -/
def decode_event (close_window_atom take_focus_atom : Atom) (e : RawXEvent) :
    DecodeResult :=
  if e.type_ = xKeyPress then
    DecodeResult.ret (XBridgeEvent.KeyPress { state := e.state, code := e.keycode } e.window)
  else if e.type_ = xExpose then
    DecodeResult.ret (XBridgeEvent.Expose e.window)
  else if e.type_ = xConfigureNotify then
    DecodeResult.ret (XBridgeEvent.ConfigureNotify e.width e.height e.window)
  else if e.type_ = xReparentNotify then
    DecodeResult.ret (XBridgeEvent.ReparentNotify e.window)
  else if e.type_ = xClientMessage then
    if e.data0 = close_window_atom then
      DecodeResult.ret (XBridgeEvent.DestroyRequest e.window)
    else if e.data0 = take_focus_atom then
      DecodeResult.panics
    else
      DecodeResult.skip
  else if e.type_ = xDestroyNotify then
    DecodeResult.ret (XBridgeEvent.DestroyNotify e.window)
  else if e.type_ = xFocusIn then
    if e.detail = notifyInferior then DecodeResult.skip
    else DecodeResult.ret (XBridgeEvent.ParentFocus e.window)
  else
    DecodeResult.skip

/-- The atom-set result of XBridge::init (src/xbridge.rs): the optional pid
atom plus the three required protocol atoms. -/
structure XBridgeAtoms where
  pid_atom : Option Atom
  close_window_atom : Atom
  take_focus_atom : Atom
  wm_protocols_atom : Atom
  deriving DecidableEq, Repr

/-- XBridge::init, over an atom-interning oracle: the pid atom is kept as an
Option, while a missing delete-window, take-focus or protocols atom makes
init fail. -/
def XBridge.init (intern : String → Option Atom) : Option XBridgeAtoms :=
  let pid_atom := intern "_NET_WM_PID"
  match intern "WM_DELETE_WINDOW" with
  | none => none
  | some close_window_atom =>
    match intern "WM_TAKE_FOCUS" with
    | none => none
    | some take_focus_atom =>
      match intern "WM_PROTOCOLS" with
      | none => none
      | some wm_protocols_atom =>
        some { pid_atom := pid_atom, close_window_atom := close_window_atom,
               take_focus_atom := take_focus_atom, wm_protocols_atom := wm_protocols_atom }

/-- XBridge::get_window_pid, over a property-read oracle.  The Bool records
whether XGetWindowProperty was called: `self.pid_atom?` returns None without
any server query when the pid atom is absent. -/
def get_window_pid (atoms : XBridgeAtoms) (readProp : Atom → Option Nat) :
    Option Nat × Bool :=
  match atoms.pid_atom with
  | none => (none, false)
  | some atom => (readProp atom, true)

/-! ## Concrete instances used to evaluate the definitions -/

/-- The remap table of the spec's concrete scenario: chord (46,0) to (48,0). -/
def kmW : KeyMap := [({ code := 46, state := 0 }, { code := 48, state := 0 })]

/-- A second remap table, for exercising grab replacement. -/
def kmW2 : KeyMap := [({ code := 10, state := 1 }, { code := 11, state := 0 })]

/-- A bridge with no registrations. -/
def bridge0 : XBridge :=
  { grabbed_keys := [], window_creation_listening_screens := [] }

/-- A bridge that already holds a grab of `kmW` on window 3. -/
def bW : XBridge :=
  { grabbed_keys := [(3, kmW)], window_creation_listening_screens := [] }

/-- A loop configuration: table `kmW`, accept-everything filter, query oracles
returning nothing, screen 0. -/
def cfgW : RebindConfig :=
  { key_map := kmW, window_filter := fun _ => true,
    pidOf := fun _ => none, classOf := fun _ => none, screen := 0 }

/-- A state where frame 7 has adopted child 9. -/
def sW1 : DesktopState :=
  { x := bridge0,
    parent_child_map := [(7, WindowState.Valid 9)],
    parent_needed_queue := [] }

/-- A state with an empty record table and child 5 pending. -/
def sW3 : DesktopState :=
  { x := bridge0, parent_child_map := [], parent_needed_queue := [5] }

/-- A state whose pending queue already holds window 1. -/
def sW4 : DesktopState :=
  { x := bridge0, parent_child_map := [], parent_needed_queue := [1] }

/-- A state where frame 7 is exiting with child 9. -/
def sW5 : DesktopState :=
  { x := bridge0,
    parent_child_map := [(7, WindowState.Exiting 9)],
    parent_needed_queue := [] }

/-- An interning oracle lacking only the pid atom. -/
def internW : String → Option Atom :=
  fun s => if s = "_NET_WM_PID" then none else some 1

/-- The atoms XBridge::init produces from `internW`. -/
def atomsW : XBridgeAtoms :=
  { pid_atom := none, close_window_atom := 1, take_focus_atom := 1,
    wm_protocols_atom := 1 }

/-- The event trace that adopts child 1 into frame 10 and then tears the
pair down. -/
def evsTeardown : List XBridgeEvent :=
  [XBridgeEvent.ReparentNotify 1, XBridgeEvent.Expose 10,
   XBridgeEvent.DestroyRequest 10, XBridgeEvent.DestroyNotify 1]

/-- Forward half of the spec's grab invariant: every parent that currently has
an Adoption Record has an entry in the bridge's grabbed-keys map. -/
def recordImpliesGrab (s : DesktopState) : Prop :=
  ∀ P : WindowHandle, (mapLookup P s.parent_child_map).isSome →
    (mapLookup P s.x.grabbed_keys).isSome

/-! ## Association-list lemmas -/

theorem mapLookup_insert_self {β : Type} (k : WindowHandle) (v : β)
    (m : List (WindowHandle × β)) : mapLookup k (mapInsert k v m) = some v := by
  induction m with
  | nil => simp [mapInsert, mapLookup]
  | cons e rest ih =>
    by_cases h : e.1 = k
    · simp [mapInsert, h, mapLookup]
    · simp [mapInsert, h, mapLookup, ih]

theorem mapLookup_insert_ne {β : Type} {k k' : WindowHandle} (v : β)
    (m : List (WindowHandle × β)) (h : k' ≠ k) :
    mapLookup k' (mapInsert k v m) = mapLookup k' m := by
  induction m with
  | nil =>
    simp only [mapInsert, mapLookup]
    rw [if_neg (fun h2 : k = k' => h h2.symm)]
  | cons e rest ih =>
    obtain ⟨a, b⟩ := e
    by_cases he : a = k
    · subst he
      simp only [mapInsert, if_pos rfl, mapLookup]
      rw [if_neg (fun h2 : a = k' => h h2.symm), if_neg (fun h2 : a = k' => h h2.symm)]
    · simp only [mapInsert, if_neg he, mapLookup, ih]

theorem mapLookup_remove_self {β : Type} (k : WindowHandle)
    (m : List (WindowHandle × β)) : mapLookup k (mapRemove k m) = none := by
  induction m with
  | nil => simp [mapRemove, mapLookup]
  | cons e rest ih =>
    by_cases h : e.1 = k
    · simp [mapRemove, h, ih]
    · simp [mapRemove, h, mapLookup, ih]

theorem mapLookup_remove_ne {β : Type} {k k' : WindowHandle}
    (m : List (WindowHandle × β)) (h : k' ≠ k) :
    mapLookup k' (mapRemove k m) = mapLookup k' m := by
  induction m with
  | nil => simp [mapRemove]
  | cons e rest ih =>
    obtain ⟨a, b⟩ := e
    by_cases he : a = k
    · subst he
      simp [mapRemove, mapLookup, ih, Ne.symm h]
    · simp only [mapRemove, if_neg he, mapLookup, ih]

theorem mem_of_mapLookup_some {β : Type} {k : WindowHandle} {v : β}
    {m : List (WindowHandle × β)} (h : mapLookup k m = some v) : (k, v) ∈ m := by
  induction m with
  | nil => simp [mapLookup] at h
  | cons e rest ih =>
    obtain ⟨a, b⟩ := e
    by_cases he : a = k
    · subst he
      simp only [mapLookup, eq_self_iff_true, if_true, Option.some.injEq] at h
      subst h
      exact List.mem_cons_self _ _
    · simp only [mapLookup, if_neg he] at h
      exact List.mem_cons_of_mem _ (ih h)

theorem mapLookup_isSome_of_remove {β : Type} {k k' : WindowHandle}
    {m : List (WindowHandle × β)} (h : (mapLookup k (mapRemove k' m)).isSome) :
    (mapLookup k m).isSome := by
  by_cases he : k = k'
  · subst he
    rw [mapLookup_remove_self] at h
    simp at h
  · rwa [mapLookup_remove_ne m he] at h

theorem mapLookup_isSome_of_foldl_remove {β : Type} {k : WindowHandle}
    (ks : List WindowHandle) (m : List (WindowHandle × β))
    (h : (mapLookup k (ks.foldl (fun acc k' => mapRemove k' acc) m)).isSome) :
    (mapLookup k m).isSome := by
  induction ks generalizing m with
  | nil => exact h
  | cons k0 rest ih => exact mapLookup_isSome_of_remove (ih _ h)

theorem mapLookup_none_of_foldl_remove {β : Type} {k : WindowHandle}
    (ks : List WindowHandle) (m : List (WindowHandle × β))
    (hk : mapLookup k m = none) :
    mapLookup k (ks.foldl (fun acc k' => mapRemove k' acc) m) = none := by
  induction ks generalizing m with
  | nil => exact hk
  | cons k0 rest ih =>
    apply ih
    by_cases he : k = k0
    · subst he
      exact mapLookup_remove_self k m
    · rwa [mapLookup_remove_ne m he]

theorem mapLookup_foldl_remove_of_mem {β : Type} {k : WindowHandle}
    (ks : List WindowHandle) (m : List (WindowHandle × β)) (hk : k ∈ ks) :
    mapLookup k (ks.foldl (fun acc k' => mapRemove k' acc) m) = none := by
  induction ks generalizing m with
  | nil => simp at hk
  | cons k0 rest ih =>
    rcases List.mem_cons.mp hk with h | h
    · subst h
      exact mapLookup_none_of_foldl_remove rest _ (mapLookup_remove_self k m)
    · exact ih _ h

/-! ## State-shape lemmas for the event handlers -/

theorem handle_key_press_state (s : DesktopState) (parent : WindowHandle)
    (key : Key) (km : KeyMap) : (s.handle_key_press parent key km).1 = s := by
  simp only [DesktopState.handle_key_press]
  cases mapLookup parent s.parent_child_map with
  | none => rfl
  | some cs => cases cs <;> rfl

theorem handle_parent_update_state (s : DesktopState) (parent : WindowHandle)
    (w h : Nat) : (s.handle_parent_update parent w h).1 = s := by
  simp only [DesktopState.handle_parent_update]
  cases mapLookup parent s.parent_child_map with
  | none => rfl
  | some cs => cases cs <;> rfl

theorem focus_not_in_grab_trace (b : XBridge) (window : WindowHandle)
    (key_map : KeyMap) (w : WindowHandle) :
    XCmd.focusWindow w ∉ (XBridge.grab_keys b window key_map).2 := by
  simp only [XBridge.grab_keys]
  intro hmem
  rcases List.mem_append.mp hmem with hm | hm
  · cases hu : mapLookup window b.grabbed_keys with
    | none => rw [hu] at hm; simp at hm
    | some old => rw [hu] at hm; simp [ungrab_keys] at hm
  · simp at hm

/-! ## Claim C1: key-press forwarding -/

/-- Claim C1: for a remap table T, a parent P with record Valid(C) and a key
chord K, handling KeyPress emits exactly one synthetic key event, delivered to
C and carrying T(K) when K is in the table and K itself otherwise; with no
record for P, no synthetic event (no command at all) is emitted. -/
theorem keypress_forwards_exactly_one (s : DesktopState) (T : KeyMap)
    (P C : WindowHandle) (K : Key) :
    (mapLookup P s.parent_child_map = some (WindowState.Valid C) →
      (s.handle_key_press P K T).2 =
        [XCmd.sendKeyEvent C ((KeyMap.mapped_key T K).getD K)]) ∧
    (mapLookup P s.parent_child_map = none →
      (s.handle_key_press P K T).2 = []) := by
  constructor
  · intro h
    simp only [DesktopState.handle_key_press, h]
    cases hm : KeyMap.mapped_key T K <;> simp [hm, Option.getD]
  · intro h
    simp only [DesktopState.handle_key_press, h]

/-- Witness for C1: the spec's concrete scenario — chord (46,0) remaps to
(48,0) for the adopted pair (7, 9), and an unmapped chord passes through;
with no record nothing is sent. -/
theorem keypress_forwards_exactly_one_witness :
    (sW1.handle_key_press 7 { code := 46, state := 0 } kmW).2 =
      [XCmd.sendKeyEvent 9 { code := 48, state := 0 }] ∧
    (sW1.handle_key_press 7 { code := 50, state := 0 } kmW).2 =
      [XCmd.sendKeyEvent 9 { code := 50, state := 0 }] ∧
    (sW3.handle_key_press 7 { code := 46, state := 0 } kmW).2 = [] :=
  ⟨(keypress_forwards_exactly_one sW1 kmW 7 9 { code := 46, state := 0 }).1 (by decide),
   (keypress_forwards_exactly_one sW1 kmW 7 9 { code := 50, state := 0 }).1 (by decide),
   (keypress_forwards_exactly_one sW3 kmW 7 9 { code := 46, state := 0 }).2 (by decide)⟩

/-! ## Claim C3: what an adopting Expose actually does -/

/-- Claim C3 counterexample: exposing frame 7 with child 5 pending performs
the adoption (record inserted, reparent command issued, keys grabbed) but
emits no focus command at all, so the claimed "focusing C" does not happen. -/
theorem expose_does_not_focus_counterexample :
    mapLookup 7 (sW3.handle_parent_expose 7 kmW).1.parent_child_map =
      some (WindowState.Valid 5) ∧
    XCmd.reparentWindow 5 7 ∈ (sW3.handle_parent_expose 7 kmW).2 ∧
    XCmd.focusWindow 5 ∉ (sW3.handle_parent_expose 7 kmW).2 := by
  decide

/-- Claim C3 (amended): for an Expose on a parent with no record, if the
Pending Queue is non-empty the handler pops the oldest pending child C and
performs all of: inserting record Valid(C), reparenting C under the parent,
and grabbing the remap table's keys on the parent — but it does not focus C;
if the queue is empty it is a no-op. -/
theorem expose_adopts_without_focus (s : DesktopState) (parent : WindowHandle)
    (key_map : KeyMap)
    (h : mapLookup parent s.parent_child_map = none) :
    (∀ child rest, s.parent_needed_queue = child :: rest →
      (s.handle_parent_expose parent key_map).1.parent_child_map =
        mapInsert parent (WindowState.Valid child) s.parent_child_map ∧
      (s.handle_parent_expose parent key_map).1.parent_needed_queue = rest ∧
      (s.handle_parent_expose parent key_map).1.x =
        (XBridge.grab_keys s.x parent key_map).1 ∧
      (s.handle_parent_expose parent key_map).2 =
        reparent_window child parent ++ (XBridge.grab_keys s.x parent key_map).2 ∧
      ∀ w, XCmd.focusWindow w ∉ (s.handle_parent_expose parent key_map).2) ∧
    (s.parent_needed_queue = [] →
      s.handle_parent_expose parent key_map = (s, [])) := by
  constructor
  · intro child rest hq
    simp only [DesktopState.handle_parent_expose, h, hq]
    refine ⟨by trivial, by trivial, by trivial, by trivial, ?_⟩
    intro w hmem
    rcases List.mem_append.mp hmem with hm | hm
    · simp [reparent_window] at hm
    · exact focus_not_in_grab_trace s.x parent key_map w hm
  · intro hq
    simp only [DesktopState.handle_parent_expose, h, hq]

/-- Witness for the amended C3: the concrete adoption of child 5 by frame 7. -/
theorem expose_adopts_without_focus_witness :
    (sW3.handle_parent_expose 7 kmW).1.parent_child_map =
      mapInsert 7 (WindowState.Valid 5) sW3.parent_child_map ∧
    (sW3.handle_parent_expose 7 kmW).1.parent_needed_queue = [] ∧
    (sW3.handle_parent_expose 7 kmW).1.x = (XBridge.grab_keys sW3.x 7 kmW).1 ∧
    (sW3.handle_parent_expose 7 kmW).2 =
      reparent_window 5 7 ++ (XBridge.grab_keys sW3.x 7 kmW).2 ∧
    ∀ w, XCmd.focusWindow w ∉ (sW3.handle_parent_expose 7 kmW).2 :=
  (expose_adopts_without_focus sW3 7 kmW (by decide)).1 5 [] rfl

/-! ## Claim C4: duplicate reparent notifications are no-ops -/

/-- Claim C4: for a window already present in the Pending Queue or as any
record's child (Valid or Exiting), handling a further ReparentNotify leaves the
whole state unchanged and issues no command (in particular no new frame
window is created). -/
theorem duplicate_reparent_noop (cfg : RebindConfig) (s : DesktopState)
    (w : WindowHandle)
    (h : w ∈ s.parent_needed_queue ∨ isRecordChild s.parent_child_map w = true) :
    rebindStep cfg s (XBridgeEvent.ReparentNotify w) = (s, []) := by
  have hq : (s.parent_needed_queue.any (fun x => x == w) ||
      isRecordChild s.parent_child_map w) = true := by
    rcases h with h | h
    · exact Bool.or_eq_true_iff.mpr (Or.inl (List.any_eq_true.mpr ⟨w, h, by simp⟩))
    · exact Bool.or_eq_true_iff.mpr (Or.inr h)
  have hh : s.handle_window_reparent w cfg.screen = (s, []) := by
    simp [DesktopState.handle_window_reparent, hq]
  simp [rebindStep, hh]

/-- Witness for C4: window 1 is already pending in `sW4`, so its duplicate
ReparentNotify is a no-op under the accept-everything configuration. -/
theorem duplicate_reparent_noop_witness :
    rebindStep cfgW sW4 (XBridgeEvent.ReparentNotify 1) = (sW4, []) :=
  duplicate_reparent_noop cfgW sW4 1 (Or.inl (by decide))

/-! ## Claim C5: two-phase teardown -/

/-- Claim C5: a DestroyRequest for a parent P with record Valid(C) rewrites the
record to Exiting(C) and issues the close sequence; a later DestroyNotify for C
(matched against the Exiting value, not the parent key) removes P's record; and
a DestroyNotify for a window that is no record's Exiting child changes
nothing. -/
theorem two_phase_teardown (cfg : RebindConfig) (s : DesktopState)
    (P C W : WindowHandle) :
    (mapLookup P s.parent_child_map = some (WindowState.Valid C) →
      rebindStep cfg s (XBridgeEvent.DestroyRequest P) =
        ({ s with parent_child_map :=
            mapInsert P (WindowState.Exiting C) s.parent_child_map },
         notify_child_should_close C P)) ∧
    (mapLookup P s.parent_child_map = some (WindowState.Exiting C) →
      mapLookup P
        (rebindStep cfg s (XBridgeEvent.DestroyNotify C)).1.parent_child_map = none) ∧
    ((∀ e ∈ s.parent_child_map, e.2 ≠ WindowState.Exiting W) →
      rebindStep cfg s (XBridgeEvent.DestroyNotify W) = (s, [])) := by
  refine ⟨?_, ?_, ?_⟩
  · intro h
    simp only [rebindStep, h]
  · intro h
    have hmem : (P, WindowState.Exiting C) ∈ s.parent_child_map :=
      mem_of_mapLookup_some h
    simp only [rebindStep]
    apply mapLookup_foldl_remove_of_mem
    apply List.mem_filterMap.mpr
    exact ⟨(P, WindowState.Exiting C), hmem, by simp⟩
  · intro h
    have hkeys : s.parent_child_map.filterMap (fun e =>
        let should_remove : Bool :=
          match e.2 with
          | WindowState.Valid _ => false
          | WindowState.Exiting child_window => W == child_window
        if should_remove then some e.1 else none) = [] := by
      rw [List.filterMap_eq_nil_iff]
      intro e he
      have hne := h e he
      cases hst : e.2 with
      | Valid c => simp [hst]
      | Exiting c =>
        have hwc : (W == c) = false := by
          rw [beq_eq_false_iff_ne]
          intro hw
          exact hne (by rw [hst, hw])
        simp [hst, hwc]
    simp [rebindStep, hkeys]

/-- Witness for C5: the pair (7, 9) — DestroyRequest 7 moves the record to
Exiting 9 with the close sequence; DestroyNotify 9 removes the exiting record;
DestroyNotify 8 (unrelated) changes nothing. -/
theorem two_phase_teardown_witness :
    rebindStep cfgW sW1 (XBridgeEvent.DestroyRequest 7) =
      ({ sW1 with parent_child_map :=
          mapInsert 7 (WindowState.Exiting 9) sW1.parent_child_map },
       notify_child_should_close 9 7) ∧
    mapLookup 7
      (rebindStep cfgW sW5 (XBridgeEvent.DestroyNotify 9)).1.parent_child_map = none ∧
    rebindStep cfgW sW1 (XBridgeEvent.DestroyNotify 8) = (sW1, []) :=
  ⟨(two_phase_teardown cfgW sW1 7 9 8).1 (by decide),
   (two_phase_teardown cfgW sW5 7 9 8).2.1 (by decide),
   (two_phase_teardown cfgW sW1 7 9 8).2.2 (by decide)⟩

/-! ## Claim C6: grab replacement is atomic -/

/-- Claim C6: for a window W that already had key map `old` grabbed,
grab_keys(W, new) first emits an ungrab for every key of `old` and then a grab
for every input-side key of `new`, and afterwards the bridge's grabbed-key
entry for W is exactly `new`. -/
theorem grab_keys_replaces_atomically (b : XBridge) (W : WindowHandle)
    (old new : KeyMap) (h : mapLookup W b.grabbed_keys = some old) :
    (XBridge.grab_keys b W new).2 =
      ungrab_keys W old ++
        (KeyMap.keyList new).map (fun k => XCmd.xGrabKey k W) ∧
    mapLookup W (XBridge.grab_keys b W new).1.grabbed_keys = some new := by
  constructor
  · simp [XBridge.grab_keys, h]
  · simp [XBridge.grab_keys, mapLookup_insert_self]

/-- Witness for C6: swapping window 3's grab from `kmW` to `kmW2`. -/
theorem grab_keys_replaces_atomically_witness :
    (XBridge.grab_keys bW 3 kmW2).2 =
      ungrab_keys 3 kmW ++
        (KeyMap.keyList kmW2).map (fun k => XCmd.xGrabKey k 3) ∧
    mapLookup 3 (XBridge.grab_keys bW 3 kmW2).1.grabbed_keys = some kmW2 :=
  grab_keys_replaces_atomically bW 3 kmW kmW2 (by decide)

/-! ## Claim C8: totality of the event decoder -/

/-- Claim C8 (code bug): decoding a ClientMessage whose first data word is the
take-focus atom reaches `todo!()` and panics instead of being skipped, so
wait_next_event is not total over incoming server events. -/
theorem wait_next_event_take_focus_panics :
    decode_event 101 102
      { type_ := xClientMessage, window := 5, state := 0, keycode := 0,
        width := 0, height := 0, detail := 0, data0 := 102 } =
      DecodeResult.panics := by
  decide

/-! ## Claim C9: the acceptance-filter clause -/

/-- Claim C9 counterexample: a clause whose configured filter value is set
does NOT match a window whose queried value is None — matches_filter returns
false, where the claim requires a match. -/
theorem matches_filter_none_value_counterexample :
    matches_filter (some 5) (none : Option Nat) = false := rfl

/-- Claim C9 (amended): a clause with filter value None matches anything; a
clause with a set filter value matches exactly the present, equal queried
value — in particular a window whose query returned None fails a set
clause. -/
theorem matches_filter_clause_semantics {P : Type} [BEq P] (f v : P) :
    matches_filter (none : Option P) (some v) = true ∧
    matches_filter (none : Option P) (none : Option P) = true ∧
    matches_filter (some f) (some v) = (v == f) ∧
    matches_filter (some f) (none : Option P) = false :=
  ⟨rfl, rfl, rfl, rfl⟩

/-! ## Claim C10: the pid atom is optional at init -/

/-- Claim C10: XBridge::init fails exactly when one of the delete-window,
take-focus or protocols atoms is missing; the pid atom is carried as an
Option, and when it is absent every get_window_pid call returns None without
issuing a property query. -/
theorem init_pid_atom_optional (intern : String → Option Atom) :
    (XBridge.init intern = none ↔
      (intern "WM_DELETE_WINDOW" = none ∨ intern "WM_TAKE_FOCUS" = none ∨
       intern "WM_PROTOCOLS" = none)) ∧
    (∀ atoms, XBridge.init intern = some atoms →
      atoms.pid_atom = intern "_NET_WM_PID") ∧
    (∀ atoms, XBridge.init intern = some atoms → atoms.pid_atom = none →
      ∀ readProp, get_window_pid atoms readProp = (none, false)) := by
  refine ⟨?_, ?_, ?_⟩
  · cases h1 : intern "WM_DELETE_WINDOW" <;>
      cases h2 : intern "WM_TAKE_FOCUS" <;>
        cases h3 : intern "WM_PROTOCOLS" <;>
          simp [XBridge.init, h1, h2, h3]
  · intro atoms h
    cases h1 : intern "WM_DELETE_WINDOW" <;>
      cases h2 : intern "WM_TAKE_FOCUS" <;>
        cases h3 : intern "WM_PROTOCOLS" <;>
          simp [XBridge.init, h1, h2, h3] at h
    rw [← h]
  · intro atoms h hpid readProp
    cases h1 : intern "WM_DELETE_WINDOW" <;>
      cases h2 : intern "WM_TAKE_FOCUS" <;>
        cases h3 : intern "WM_PROTOCOLS" <;>
          simp [XBridge.init, h1, h2, h3] at h
    rw [← h] at hpid
    have hpid2 : intern "_NET_WM_PID" = none := hpid
    rw [← h]
    simp [get_window_pid, hpid2]

/-- Witness for C10: with `internW` (pid atom missing, the rest present) init
succeeds with no pid atom and get_window_pid answers (none, no-query). -/
theorem init_pid_atom_optional_witness :
    XBridge.init internW = some atomsW ∧
    atomsW.pid_atom = internW "_NET_WM_PID" ∧
    get_window_pid atomsW (fun a => some a) = (none, false) := by
  have h := init_pid_atom_optional internW
  exact ⟨by decide, h.2.1 atomsW (by decide), h.2.2 atomsW (by decide) (by decide) _⟩

/-! ## Claim C7: grabs versus records -/

theorem parent_focus_state (cfg : RebindConfig) (s : DesktopState)
    (parent : WindowHandle) :
    (rebindStep cfg s (XBridgeEvent.ParentFocus parent)).1 = s := by
  simp only [rebindStep]
  cases mapLookup parent s.parent_child_map with
  | none => rfl
  | some cs => cases cs <;> rfl

theorem reparent_step_preserves_map_x (cfg : RebindConfig) (s : DesktopState)
    (w : WindowHandle) :
    (rebindStep cfg s (XBridgeEvent.ReparentNotify w)).1.parent_child_map =
      s.parent_child_map ∧
    (rebindStep cfg s (XBridgeEvent.ReparentNotify w)).1.x = s.x := by
  simp only [rebindStep, DesktopState.handle_window_reparent]
  by_cases hf : cfg.window_filter { pid := cfg.pidOf w, cls := cfg.classOf w } = false
  · simp [hf]
  · by_cases hc : (s.parent_needed_queue.any (fun x => x == w) ||
        isRecordChild s.parent_child_map w) = true
    · simp [hf, hc]
    · simp [hf, hc]

theorem rebindStep_preserves_recordImpliesGrab (cfg : RebindConfig)
    (s : DesktopState) (e : XBridgeEvent) (h : recordImpliesGrab s) :
    recordImpliesGrab (rebindStep cfg s e).1 := by
  cases e with
  | KeyPress key parent =>
    simpa only [rebindStep, handle_key_press_state] using h
  | ConfigureNotify width height parent =>
    simpa only [rebindStep, handle_parent_update_state] using h
  | ParentFocus parent =>
    simpa only [parent_focus_state] using h
  | ReparentNotify w =>
    intro P hP
    rw [(reparent_step_preserves_map_x cfg s w).2]
    rw [(reparent_step_preserves_map_x cfg s w).1] at hP
    exact h P hP
  | DestroyNotify w =>
    simp only [rebindStep]
    intro P hP
    exact h P (mapLookup_isSome_of_foldl_remove _ _ hP)
  | DestroyRequest w =>
    simp only [rebindStep]
    cases hl : mapLookup w s.parent_child_map with
    | none => exact h
    | some cs =>
      cases cs with
      | Exiting c => exact h
      | Valid c =>
        intro P hP
        have hP2 : (mapLookup P
            (mapInsert w (WindowState.Exiting c) s.parent_child_map)).isSome := hP
        by_cases hPw : P = w
        · subst hPw
          exact h P (by rw [hl]; rfl)
        · rw [mapLookup_insert_ne _ _ hPw] at hP2
          exact h P hP2
  | Expose parent =>
    simp only [rebindStep, DesktopState.handle_parent_expose]
    cases hl : mapLookup parent s.parent_child_map with
    | some cs => cases cs <;> exact h
    | none =>
      cases hq : s.parent_needed_queue with
      | nil => exact h
      | cons child rest =>
        intro P hP
        have hP2 : (mapLookup P
            (mapInsert parent (WindowState.Valid child) s.parent_child_map)).isSome := hP
        by_cases hPp : P = parent
        · subst hPp
          show (mapLookup P
            (mapInsert P cfg.key_map (mapRemove P s.x.grabbed_keys))).isSome
          rw [mapLookup_insert_self]
          rfl
        · rw [mapLookup_insert_ne _ _ hPp] at hP2
          show (mapLookup P
            (mapInsert parent cfg.key_map (mapRemove parent s.x.grabbed_keys))).isSome
          rw [mapLookup_insert_ne _ _ hPp, mapLookup_remove_ne _ hPp]
          exact h P hP2

theorem runEvents_preserves_recordImpliesGrab (cfg : RebindConfig)
    (evs : List XBridgeEvent) (s : DesktopState) (h : recordImpliesGrab s) :
    recordImpliesGrab (runEvents cfg s evs) := by
  induction evs generalizing s with
  | nil => exact h
  | cons e rest ih =>
    exact ih _ (rebindStep_preserves_recordImpliesGrab cfg s e h)

/-- Claim C7 counterexample: running the teardown trace from the initial state
leaves no Adoption Record at all, yet the bridge still holds a grabbed-keys
entry for parent 10 — refuting "after a record is removed by DestroyNotify, no
grab entry for that parent remains" (and with it the claimed "only if"
direction of the invariant). -/
theorem grab_entry_persists_counterexample :
    (runEvents cfgW (rebindInit 0) evsTeardown).parent_child_map = [] ∧
    mapLookup 10 (runEvents cfgW (rebindInit 0) evsTeardown).x.grabbed_keys =
      some kmW := by
  decide

/-- Claim C7 (amended): in every state the event loop can reach, a parent
that has an Adoption Record has keys grabbed (grabs are established together
with the record); the converse fails, because removing a record via
DestroyNotify leaves the grab entry in the bridge state until bridge
teardown. -/
theorem record_has_grab_entry (cfg : RebindConfig) (evs : List XBridgeEvent)
    (P : WindowHandle)
    (h : (mapLookup P
        (runEvents cfg (rebindInit cfg.screen) evs).parent_child_map).isSome) :
    (mapLookup P
        (runEvents cfg (rebindInit cfg.screen) evs).x.grabbed_keys).isSome := by
  have hinit : recordImpliesGrab (rebindInit cfg.screen) := by
    intro Q hQ
    simp [rebindInit, mapLookup] at hQ
  exact runEvents_preserves_recordImpliesGrab cfg evs _ hinit P h

/-- Witness for the amended C7: after reparent-then-expose, parent 10 has a
record and, accordingly, a grab entry. -/
theorem record_has_grab_entry_witness :
    (mapLookup 10 (runEvents cfgW (rebindInit cfgW.screen)
        [XBridgeEvent.ReparentNotify 1, XBridgeEvent.Expose 10]).x.grabbed_keys).isSome :=
  record_has_grab_entry cfgW [XBridgeEvent.ReparentNotify 1, XBridgeEvent.Expose 10]
    10 (by decide)

/-! ## Claim C2: FIFO adoption pairing -/

theorem runEvents_append (cfg : RebindConfig) (s : DesktopState)
    (l1 l2 : List XBridgeEvent) :
    runEvents cfg s (l1 ++ l2) = runEvents cfg (runEvents cfg s l1) l2 := by
  induction l1 generalizing s with
  | nil => rfl
  | cons e rest ih => simp [runEvents, ih]

theorem rebindStep_reparent_accepted (cfg : RebindConfig) (s : DesktopState)
    (c : WindowHandle)
    (hf : cfg.window_filter { pid := cfg.pidOf c, cls := cfg.classOf c } = true)
    (hq : c ∉ s.parent_needed_queue)
    (hp : isRecordChild s.parent_child_map c = false) :
    (rebindStep cfg s (XBridgeEvent.ReparentNotify c)).1 =
      { s with parent_needed_queue := s.parent_needed_queue ++ [c] } := by
  have hq2 : s.parent_needed_queue.any (fun x => x == c) = false := by
    rw [List.any_eq_false]
    intro x hx
    simp only [beq_iff_eq]
    intro hxc
    exact hq (hxc ▸ hx)
  simp only [rebindStep, DesktopState.handle_window_reparent]
  rw [if_neg (by simp [hf])]
  simp [hq2, hp]

theorem runEvents_reparents (cfg : RebindConfig) (cs : List WindowHandle)
    (s : DesktopState)
    (hacc : ∀ c ∈ cs,
      cfg.window_filter { pid := cfg.pidOf c, cls := cfg.classOf c } = true)
    (hnodup : cs.Nodup)
    (hnq : ∀ c ∈ cs, c ∉ s.parent_needed_queue)
    (hnp : ∀ c ∈ cs, isRecordChild s.parent_child_map c = false) :
    runEvents cfg s (cs.map XBridgeEvent.ReparentNotify) =
      { s with parent_needed_queue := s.parent_needed_queue ++ cs } := by
  induction cs generalizing s with
  | nil => simp [runEvents]
  | cons c cs2 ih =>
    simp only [List.map, runEvents]
    rw [rebindStep_reparent_accepted cfg s c (hacc c (by simp))
      (hnq c (by simp)) (hnp c (by simp))]
    rw [ih { s with parent_needed_queue := s.parent_needed_queue ++ [c] }
      (fun d hd => hacc d (by simp [hd]))
      (List.nodup_cons.mp hnodup).2
      (fun d hd => by
        simp only [List.mem_append, List.mem_singleton]
        rintro (hds | rfl)
        · exact hnq d (by simp [hd]) hds
        · exact (List.nodup_cons.mp hnodup).1 hd)
      (fun d hd => hnp d (by simp [hd]))]
    simp

theorem expose_lookup_preserved (cfg : RebindConfig) (fs : List WindowHandle)
    (s : DesktopState) (f : WindowHandle) (hnf : f ∉ fs) :
    mapLookup f (runEvents cfg s (fs.map XBridgeEvent.Expose)).parent_child_map =
      mapLookup f s.parent_child_map := by
  induction fs generalizing s with
  | nil => rfl
  | cons f0 fs2 ih =>
    have hne : f ≠ f0 := fun h => hnf (h ▸ List.mem_cons_self f0 fs2)
    have hnf2 : f ∉ fs2 := fun h => hnf (List.mem_cons_of_mem _ h)
    simp only [List.map, runEvents]
    rw [ih _ hnf2]
    simp only [rebindStep, DesktopState.handle_parent_expose]
    cases hl : mapLookup f0 s.parent_child_map with
    | some cs => cases cs <;> rfl
    | none =>
      cases hq : s.parent_needed_queue with
      | nil => rfl
      | cons child rest =>
        exact mapLookup_insert_ne _ _ hne

theorem exposes_pairing (cfg : RebindConfig) (fs : List WindowHandle) :
    ∀ (cs rest : List WindowHandle) (s : DesktopState),
    s.parent_needed_queue = cs ++ rest →
    fs.length = cs.length →
    fs.Nodup →
    (∀ f ∈ fs, mapLookup f s.parent_child_map = none) →
    ∀ p ∈ fs.zip cs,
      mapLookup p.1
        (runEvents cfg s (fs.map XBridgeEvent.Expose)).parent_child_map =
        some (WindowState.Valid p.2) := by
  induction fs with
  | nil =>
    intro cs rest s _ _ _ _ p hp
    simp at hp
  | cons f fs2 ih =>
    intro cs rest s hq hlen hnodup hfresh p hp
    cases cs with
    | nil => simp at hlen
    | cons c cs2 =>
      have hf0 : mapLookup f s.parent_child_map = none := hfresh f (by simp)
      have hstep : (rebindStep cfg s (XBridgeEvent.Expose f)).1 =
          { s with
            parent_child_map :=
              mapInsert f (WindowState.Valid c) s.parent_child_map,
            parent_needed_queue := cs2 ++ rest,
            x := (XBridge.grab_keys s.x f cfg.key_map).1 } := by
        simp only [rebindStep, DesktopState.handle_parent_expose, hf0, hq,
          List.cons_append]
      have hfresh2 : ∀ g ∈ fs2,
          mapLookup g (rebindStep cfg s (XBridgeEvent.Expose f)).1.parent_child_map
            = none := by
        intro g hg
        rw [hstep]
        have hgf : g ≠ f := fun h =>
          (List.nodup_cons.mp hnodup).1 (h ▸ hg)
        show mapLookup g (mapInsert f (WindowState.Valid c) s.parent_child_map) = none
        rw [mapLookup_insert_ne _ _ hgf]
        exact hfresh g (by simp [hg])
      simp only [List.map, runEvents]
      rw [List.zip_cons_cons] at hp
      rcases List.mem_cons.mp hp with rfl | hp2
      · rw [expose_lookup_preserved cfg fs2 _ f (List.nodup_cons.mp hnodup).1]
        rw [hstep]
        exact mapLookup_insert_self f (WindowState.Valid c) s.parent_child_map
      · refine ih cs2 rest (rebindStep cfg s (XBridgeEvent.Expose f)).1
          ?_ ?_ (List.nodup_cons.mp hnodup).2 hfresh2 p hp2
        · rw [hstep]
        · simpa using hlen

/-- Claim C2: starting from an empty Pending Queue, after N accepted
ReparentNotify events for distinct children followed by N Expose events on N
distinct record-free frames (in an arbitrary frame order), the k-th exposed
frame holds a Valid record for the k-th accepted child — the pairing follows
the FIFO order of acceptance regardless of the expose order. -/
theorem fifo_adoption_pairing (cfg : RebindConfig) (s0 : DesktopState)
    (cs fs : List WindowHandle)
    (hq0 : s0.parent_needed_queue = [])
    (hcs : cs.Nodup) (hfs : fs.Nodup)
    (hlen : fs.length = cs.length)
    (hacc : ∀ c ∈ cs,
      cfg.window_filter { pid := cfg.pidOf c, cls := cfg.classOf c } = true)
    (hnp : ∀ c ∈ cs, isRecordChild s0.parent_child_map c = false)
    (hfresh : ∀ f ∈ fs, mapLookup f s0.parent_child_map = none) :
    ∀ p ∈ fs.zip cs,
      mapLookup p.1
        (runEvents cfg s0 (cs.map XBridgeEvent.ReparentNotify ++
          fs.map XBridgeEvent.Expose)).parent_child_map =
        some (WindowState.Valid p.2) := by
  rw [runEvents_append]
  rw [runEvents_reparents cfg cs s0 hacc hcs (fun c _ => by simp [hq0]) hnp]
  exact exposes_pairing cfg fs cs [] _ (by simp [hq0]) hlen hfs hfresh

/-- Witness for C2: children 1, 2 accepted in that order, frames 11, 10
exposed; the first-exposed frame 11 holds child 1 and frame 10 holds
child 2. -/
theorem fifo_adoption_pairing_witness :
    mapLookup 11
      (runEvents cfgW (rebindInit 0)
        (([1, 2] : List WindowHandle).map XBridgeEvent.ReparentNotify ++
         ([11, 10] : List WindowHandle).map XBridgeEvent.Expose)).parent_child_map =
      some (WindowState.Valid 1) ∧
    mapLookup 10
      (runEvents cfgW (rebindInit 0)
        (([1, 2] : List WindowHandle).map XBridgeEvent.ReparentNotify ++
         ([11, 10] : List WindowHandle).map XBridgeEvent.Expose)).parent_child_map =
      some (WindowState.Valid 2) :=
  ⟨fifo_adoption_pairing cfgW (rebindInit 0) [1, 2] [11, 10] rfl (by decide)
    (by decide) rfl (by decide) (by decide) (by decide) (11, 1) (by decide),
   fifo_adoption_pairing cfgW (rebindInit 0) [1, 2] [11, 10] rfl (by decide)
    (by decide) rfl (by decide) (by decide) (by decide) (10, 2) (by decide)⟩
